import Mathlib

/-!
Shallow embedding of the touch-keyboard activation controller and the
display-size record code of the XboxFullScreenExperienceTool repository
(src/PhysPanelCPP).  The external world (process table, filesystem, shell,
COM runtime, windowing subsystem) is abstracted as an `Env` of oracles;
every Win32/COM call site of `KeyboardManager.cpp` reads its outcome from
the corresponding oracle, and the side effects performed by a run are
recorded in a `Trace`.
-/

namespace KeyboardManager

/-- `INVALID_FILE_ATTRIBUTES` (Win32), returned by `GetFileAttributesW` on
failure. -/
def INVALID_FILE_ATTRIBUTES : Nat := 0xFFFFFFFF

/-- `FILE_ATTRIBUTE_DIRECTORY` (Win32). -/
def FILE_ATTRIBUTE_DIRECTORY : Nat := 0x10

/-- `SHELL_READY_TIMEOUT = std::chrono::seconds(30)` (KeyboardManager.cpp:116),
in milliseconds. -/
def SHELL_READY_TIMEOUT_MS : Nat := 30000

/-- `COM_SERVICE_TIMEOUT = std::chrono::seconds(10)` (KeyboardManager.cpp:117),
in milliseconds. -/
def COM_SERVICE_TIMEOUT_MS : Nat := 10000

/-- `POST_LAUNCH_DELAY = std::chrono::seconds(5)` (KeyboardManager.cpp:118),
in milliseconds. -/
def POST_LAUNCH_DELAY_MS : Nat := 5000

/-- The `FAILED(hr)` HRESULT test: an HRESULT is a failure iff it is
negative as a signed 32-bit value. -/
abbrev HR_FAILED (hr : Int) : Prop := hr < 0

/-- The `SUCCEEDED(hr)` HRESULT test. -/
abbrev HR_SUCCEEDED (hr : Int) : Prop := 0 ≤ hr

/-!
## The polling loops

`KeyboardManager.cpp` contains three `while (now() - start < timeout)`
loops: `WaitForProcess` (probe then sleep 500 ms), the visibility poll in
`StartTouchKeyboard` (probe then sleep 250 ms), and the `CoCreateInstance`
retry loop (attempt then sleep 250 ms).  We idealize the probes as
instantaneous, so on loop iteration `i` the elapsed time is `i * interval`
milliseconds and the iteration runs iff `i * interval < timeout`.  Each
loop is embedded as a recursion over the tick index that returns both the
loop's boolean outcome and the number of probe calls performed.
-/

/-- The 500 ms polling loop of `WaitForProcess` (KeyboardManager.cpp:141-147)
started at tick `i`: returns (process observed?, number of probe calls). -/
def pollRun500 (probe : Nat → Bool) (timeoutMs i : Nat) : Bool × Nat :=
  if h : i * 500 < timeoutMs then
    if probe i then (true, 1)
    else
      let r := pollRun500 probe timeoutMs (i + 1)
      (r.1, r.2 + 1)
  else (false, 0)
termination_by timeoutMs - i * 500
decreasing_by omega

/-- The 250 ms polling loops of `StartTouchKeyboard` (visibility poll at
KeyboardManager.cpp:211-217, COM connect retry at 231-235) started at tick
`i`: returns (condition observed?, number of probe calls). -/
def pollRun250 (probe : Nat → Bool) (timeoutMs i : Nat) : Bool × Nat :=
  if h : i * 250 < timeoutMs then
    if probe i then (true, 1)
    else
      let r := pollRun250 probe timeoutMs (i + 1)
      (r.1, r.2 + 1)
  else (false, 0)
termination_by timeoutMs - i * 250
decreasing_by omega

/-- `KeyboardManager::WaitForProcess` (KeyboardManager.cpp:138-150): polls
`IsProcessRunning` (abstracted as `probe`, indexed by tick) every 500 ms
until observed or `timeoutMs` elapses. -/
def WaitForProcess (probe : Nat → Bool) (timeoutMs : Nat) : Bool :=
  (pollRun500 probe timeoutMs 0).1

/-- Number of `IsProcessRunning` calls a `WaitForProcess` run performs. -/
def WaitForProcessProbes (probe : Nat → Bool) (timeoutMs : Nat) : Nat :=
  (pollRun500 probe timeoutMs 0).2

/-- Total milliseconds slept by the `WaitForProcess` loop started at tick
`i` (the loop sleeps 500 ms after every failed probe; probes are
idealized as instantaneous). -/
def waitSleptFrom (probe : Nat → Bool) (timeoutMs i : Nat) : Nat :=
  if h : i * 500 < timeoutMs then
    if probe i then 0 else 500 + waitSleptFrom probe timeoutMs (i + 1)
  else 0
termination_by timeoutMs - i * 500
decreasing_by omega

/-- Total milliseconds a `WaitForProcess` call blocks. -/
def WaitForProcessBlockedMs (probe : Nat → Bool) (timeoutMs : Nat) : Nat :=
  waitSleptFrom probe timeoutMs 0

/-!
## The activation controller

`StartTouchKeyboard` (KeyboardManager.cpp:167-281).  Every external call
site reads its outcome from an `Env` oracle; the probes of the three
polling loops are indexed by tick.  A `Trace` records the side effects of
one run.
-/

/-- Outcomes of the external calls made by one `StartTouchKeyboard` run. -/
structure Env where
  /-- `IsProcessRunning(TABTIP_PROCESS_NAME)` at entry (line 171). -/
  tabTipRunning : Bool
  /-- HRESULT of `SHGetKnownFolderPath(FOLDERID_ProgramFilesCommon, ...)` (line 177). -/
  hrPath : Int
  /-- The folder path written to `pszPath` when `hrPath` succeeds. -/
  folderPath : String
  /-- DWORD returned by `GetFileAttributesW(tabTipPath)` (line 188). -/
  fileAttr : Nat
  /-- `IsProcessRunning(SHELL_PROCESS_NAME)` at shell-wait tick `i` (line 196). -/
  shellProbe : Nat → Bool
  /-- `IsTouchKeyboardVisible()` at visibility-poll tick `i` (line 212). -/
  visibleProbe : Nat → Bool
  /-- HRESULT of `CoInitializeEx(NULL, COINIT_APARTMENTTHREADED)` (line 221). -/
  hrCoInit : Int
  /-- HRESULT of the `CoCreateInstance` attempt at retry tick `i` (line 232). -/
  hrCoCreate : Nat → Int
  /-- When `some msg`, the `pTip->Toggle` call raises a `_com_error` whose
  `ErrorMessage()` is `msg`; when `none`, the call returns normally. -/
  toggleComError : Option String
  /-- HRESULT returned by `pTip->Toggle(GetShellWindow())` when it returns
  normally (line 239); the source discards it. -/
  hrToggle : Int

/-- Side effects performed by one `StartTouchKeyboard` run. -/
structure Trace where
  /-- Calls to `SHGetKnownFolderPath`. -/
  pathLookupCalls : Nat
  /-- Calls to `GetFileAttributesW`. -/
  fileAttrCalls : Nat
  /-- Calls to `WaitForProcess` (shell readiness wait). -/
  shellWaitCalls : Nat
  /-- Calls to `ShellExecuteW`. -/
  launchCalls : Nat
  /-- The path passed to `ShellExecuteW`, when called. -/
  launchedPath : Option String
  /-- Milliseconds of unconditional post-launch settle sleep performed. -/
  settleMs : Nat
  /-- Calls to `IsTouchKeyboardVisible`. -/
  visPolls : Nat
  /-- Calls to `CoInitializeEx`. -/
  coInitCalls : Nat
  /-- Whether the `comInitialized` local of the source was set to `true`. -/
  comInitialized : Bool
  /-- Calls to `CoCreateInstance`. -/
  coCreateAttempts : Nat
  /-- Calls to `pTip->Toggle`. -/
  toggleCalls : Nat
  /-- Calls to `pTip->Release`. -/
  releaseCalls : Nat
  /-- Calls to `CoUninitialize`. -/
  coUninitCalls : Nat
deriving Repr, DecidableEq

/-- The trace of a run that performed no external action. -/
def Trace.empty : Trace := ⟨0, 0, 0, 0, none, 0, 0, 0, false, 0, 0, 0, 0⟩

/-- The C++ exceptions that can be in flight inside the `try` block of
`StartTouchKeyboard`. -/
inductive RawExc where
  | comError (msg : String)
  | activationExc (msg : String)
deriving Repr, DecidableEq

/-- The observable result of `StartTouchKeyboard`: normal return, or a
propagated `TabTipNotFoundException` / `TabTipActivationException`. -/
inductive KbOutcome where
  | ok
  | notFound (msg : String)
  | activationFailed (msg : String)
deriving Repr, DecidableEq

/-- `WstringToString` (KeyboardManager.cpp:58-64); wide strings are
modelled as `String`, so the UTF-8 conversion is the identity. -/
def WstringToString (s : String) : String := s

/-- `tabTipPath` as built at KeyboardManager.cpp:183-185. -/
def tabTipPathOf (folder : String) : String :=
  folder ++ "\\Microsoft Shared\\ink\\TabTip.exe"

/-- The file-existence test of KeyboardManager.cpp:189: the resolved
executable is missing when `GetFileAttributesW` failed or the path names
a directory. -/
def tabTipFileMissing (fileAttr : Nat) : Prop :=
  fileAttr = INVALID_FILE_ATTRIBUTES ∨ fileAttr &&& FILE_ATTRIBUTE_DIRECTORY ≠ 0

instance (fileAttr : Nat) : Decidable (tabTipFileMissing fileAttr) := by
  unfold tabTipFileMissing
  infer_instance

/-- Trace after `SHGetKnownFolderPath` failed. -/
def pathFailTrace : Trace :=
  { Trace.empty with pathLookupCalls := 1 }

/-- Trace after the executable file-existence check failed. -/
def fileMissingTrace : Trace :=
  { Trace.empty with
    pathLookupCalls := 1
    fileAttrCalls := 1 }

/-- Trace after the shell wait timed out inside the `try` block. -/
def shellFailTrace : Trace :=
  { Trace.empty with
    pathLookupCalls := 1
    fileAttrCalls := 1
    shellWaitCalls := 1 }

/-- Trace after shell wait, `ShellExecuteW`, the settle sleep and the
visibility poll (the `t0` point of the run, before any COM work). -/
def launchTrace (env : Env) : Trace :=
  { Trace.empty with
    pathLookupCalls := 1
    fileAttrCalls := 1
    shellWaitCalls := 1
    launchCalls := 1
    launchedPath := some (tabTipPathOf env.folderPath)
    settleMs := POST_LAUNCH_DELAY_MS
    visPolls := (pollRun250 env.visibleProbe COM_SERVICE_TIMEOUT_MS 0).2 }

/-- Trace after a successful `CoInitializeEx` and the `CoCreateInstance`
retry loop, before the toggle call. -/
def comTrace (env : Env) : Trace :=
  { launchTrace env with
    coInitCalls := 1
    comInitialized := true
    coCreateAttempts :=
      (pollRun250 (fun i => decide (HR_SUCCEEDED (env.hrCoCreate i)))
        COM_SERVICE_TIMEOUT_MS 0).2 }

/-- The body of the `try` block of `StartTouchKeyboard`
(KeyboardManager.cpp:195-255): shell wait, launch, settle delay,
visibility poll, and the conditional COM toggle sequence.  Returns the
exception in flight (if any) and the trace of the block, including the
normal-path `CoUninitialize` of line 251-254. -/
def tryBody (env : Env) : Except RawExc Unit × Trace :=
  if !(pollRun500 env.shellProbe SHELL_READY_TIMEOUT_MS 0).1 then
    (Except.error (RawExc.activationExc "Timed out waiting for Windows Shell (explorer.exe)."),
      shellFailTrace)
  else
    if (pollRun250 env.visibleProbe COM_SERVICE_TIMEOUT_MS 0).1 then
      if HR_FAILED env.hrCoInit then
        (Except.error (RawExc.activationExc "Failed to initialize COM for Toggle."),
          { launchTrace env with coInitCalls := 1 })
      else
        if (pollRun250 (fun i => decide (HR_SUCCEEDED (env.hrCoCreate i)))
            COM_SERVICE_TIMEOUT_MS 0).1 then
          match env.toggleComError with
          | some msg => (Except.error (RawExc.comError msg),
              { comTrace env with toggleCalls := 1 })
          | none => (Except.ok (),
              { comTrace env with
                toggleCalls := 1
                releaseCalls := 1
                coUninitCalls := 1 })
        else
          (Except.error (RawExc.activationExc
            "Timed out waiting for TabTip COM service (after keyboard was visible)."),
            comTrace env)
    else
      (Except.ok (), launchTrace env)

/-- `KeyboardManager::StartTouchKeyboard` (KeyboardManager.cpp:167-281):
the already-running short circuit, path resolution, the file-existence
check, the `try` block, and the catch handlers (which release the COM
runtime when `comInitialized` and translate `_com_error` into
`TabTipActivationException`). -/
def StartTouchKeyboard (env : Env) : KbOutcome × Trace :=
  if env.tabTipRunning then
    (KbOutcome.ok, Trace.empty)
  else if HR_FAILED env.hrPath then
    (KbOutcome.notFound "Could not get Common Program Files path.", pathFailTrace)
  else if tabTipFileMissing env.fileAttr then
    (KbOutcome.notFound "TabTip.exe not found at its expected path.", fileMissingTrace)
  else
    match tryBody env with
    | (Except.ok _, t) => (KbOutcome.ok, t)
    | (Except.error e, t) =>
      let t2 := if t.comInitialized then { t with coUninitCalls := t.coUninitCalls + 1 } else t
      match e with
      | RawExc.comError msg => (KbOutcome.activationFailed (WstringToString msg), t2)
      | RawExc.activationExc msg => (KbOutcome.activationFailed msg, t2)

end KeyboardManager

namespace PanelManager

/-!
## The display-size record (PanelManager.cpp)

`GetDisplaySize` unpacks a 64-bit WNF payload into two 32-bit
millimetre values; `SetDisplaySize` packs them.  `UINT` values are
modelled as `Nat` with explicit `< 2^32` bounds where they matter.
-/

/-- `PanelManager::Dimensions` (PanelManager.h). -/
structure Dimensions where
  WidthMm : Nat
  HeightMm : Nat
deriving Repr, DecidableEq

/-- The 64-bit payload built by `SetDisplaySize` (PanelManager.cpp:77):
`((ULONGLONG)dims.HeightMm << 32) | dims.WidthMm`. -/
def setDisplaySizePack (dims : Dimensions) : Nat :=
  (dims.HeightMm <<< 32) ||| dims.WidthMm

/-- The unpacking performed by `GetDisplaySize` (PanelManager.cpp:67-69)
on a successfully read 64-bit payload: `WidthMm = raw & 0xFFFFFFFF`,
`HeightMm = (raw >> 32) & 0xFFFFFFFF`. -/
def getDisplaySizeUnpack (raw : Nat) : Dimensions :=
  ⟨raw &&& 0xFFFFFFFF, (raw >>> 32) &&& 0xFFFFFFFF⟩

end PanelManager

namespace KeyboardManager

/-!
## Concrete environments

Used to instantiate theorems with hypotheses and to exhibit
counterexamples.
-/

/-- TabTip not running, path resolution succeeds, the executable exists
(`FILE_ATTRIBUTE_ARCHIVE`), the shell is up, the keyboard is visible at
the first poll, COM initializes, the service connects at the first
attempt, and the toggle call returns normally. -/
def happyEnv : Env :=
  ⟨false, 0, "C:\\Program Files\\Common Files", 0x20, fun _ => true, fun _ => true, 0,
    fun _ => 0, none, 0⟩

/-- `happyEnv` but with TabTip.exe already in the process table. -/
def alreadyRunningEnv : Env := { happyEnv with tabTipRunning := true }

/-- `happyEnv` but `SHGetKnownFolderPath` fails. -/
def pathFailEnv : Env := { happyEnv with hrPath := -2147024894 }

/-- `happyEnv` but `GetFileAttributesW` returns `INVALID_FILE_ATTRIBUTES`. -/
def fileMissingEnv : Env := { happyEnv with fileAttr := INVALID_FILE_ATTRIBUTES }

/-- `happyEnv` but explorer.exe never appears. -/
def shellTimeoutEnv : Env := { happyEnv with shellProbe := fun _ => false }

/-- `happyEnv` but the keyboard never becomes visible. -/
def neverVisibleEnv : Env := { happyEnv with visibleProbe := fun _ => false }

/-- `happyEnv` but `CoInitializeEx` fails. -/
def coInitFailEnv : Env := { happyEnv with hrCoInit := -2147417850 }

/-- `happyEnv` but every `CoCreateInstance` attempt fails. -/
def connFailEnv : Env := { happyEnv with hrCoCreate := fun _ => -2147221164 }

/-- `happyEnv` but the `pTip->Toggle` call raises a `_com_error`. -/
def comErrorEnv : Env := { happyEnv with toggleComError := some "RPC server unavailable." }

end KeyboardManager

/-!
# Theorems
-/

namespace KeyboardManager

/-!
## Loop lemmas
-/

/-- The 500 ms loop observes the condition iff some tick within the
budget satisfies the probe. -/
theorem pollRun500_fst_iff (probe : Nat → Bool) (t i : Nat) :
    (pollRun500 probe t i).1 = true ↔ ∃ j, i ≤ j ∧ j * 500 < t ∧ probe j = true := by
  induction i using pollRun500.induct probe t with
  | case1 i h hp =>
    rw [pollRun500]
    simp only [dif_pos h, if_pos hp]
    refine ⟨fun _ => ⟨i, le_refl i, h, hp⟩, fun _ => ?_⟩
    trivial
  | case2 i h hp ih =>
    rw [pollRun500]
    simp only [dif_pos h, if_neg hp]
    constructor
    · intro hfound
      obtain ⟨j, hij, hjt, hj⟩ := ih.mp hfound
      exact ⟨j, Nat.le_of_succ_le hij, hjt, hj⟩
    · intro ⟨j, hij, hjt, hj⟩
      apply ih.mpr
      refine ⟨j, ?_, hjt, hj⟩
      rcases Nat.eq_or_lt_of_le hij with rfl | hlt
      · exact absurd hj hp
      · exact hlt
  | case3 i h =>
    rw [pollRun500]
    simp only [dif_neg h]
    constructor
    · intro hc; exact absurd hc (by simp)
    · intro ⟨j, hij, hjt, _⟩
      exact absurd hjt (by push_neg at h ⊢; exact le_trans h (Nat.mul_le_mul_right 500 hij))

/-- The 250 ms loop observes the condition iff some tick within the
budget satisfies the probe. -/
theorem pollRun250_fst_iff (probe : Nat → Bool) (t i : Nat) :
    (pollRun250 probe t i).1 = true ↔ ∃ j, i ≤ j ∧ j * 250 < t ∧ probe j = true := by
  induction i using pollRun250.induct probe t with
  | case1 i h hp =>
    rw [pollRun250]
    simp only [dif_pos h, if_pos hp]
    refine ⟨fun _ => ⟨i, le_refl i, h, hp⟩, fun _ => ?_⟩
    trivial
  | case2 i h hp ih =>
    rw [pollRun250]
    simp only [dif_pos h, if_neg hp]
    constructor
    · intro hfound
      obtain ⟨j, hij, hjt, hj⟩ := ih.mp hfound
      exact ⟨j, Nat.le_of_succ_le hij, hjt, hj⟩
    · intro ⟨j, hij, hjt, hj⟩
      apply ih.mpr
      refine ⟨j, ?_, hjt, hj⟩
      rcases Nat.eq_or_lt_of_le hij with rfl | hlt
      · exact absurd hj hp
      · exact hlt
  | case3 i h =>
    rw [pollRun250]
    simp only [dif_neg h]
    constructor
    · intro hc; exact absurd hc (by simp)
    · intro ⟨j, hij, hjt, _⟩
      exact absurd hjt (by push_neg at h ⊢; exact le_trans h (Nat.mul_le_mul_right 250 hij))

/-- Accumulated sleep bound for the 500 ms loop: starting at tick `i`,
the loop sleeps at most until one interval past the deadline. -/
theorem waitSleptFrom_le (probe : Nat → Bool) (t : Nat) :
    ∀ i, i * 500 ≤ t + 500 → waitSleptFrom probe t i + i * 500 ≤ t + 500 := by
  intro i
  induction i using waitSleptFrom.induct probe t with
  | case1 i h hp =>
    intro _
    rw [waitSleptFrom]
    simp only [dif_pos h, if_pos hp]
    omega
  | case2 i h hp ih =>
    intro _
    rw [waitSleptFrom]
    simp only [dif_pos h, if_neg hp]
    have := ih (by omega)
    omega
  | case3 i h =>
    intro hle
    rw [waitSleptFrom]
    simp only [dif_neg h]
    omega

/-- `pollRun250` from tick 0: observed iff some tick within the budget
satisfies the probe. -/
theorem pollRun250_zero_iff (probe : Nat → Bool) (t : Nat) :
    (pollRun250 probe t 0).1 = true ↔ ∃ j, j * 250 < t ∧ probe j = true := by
  rw [pollRun250_fst_iff]
  exact exists_congr fun j => by simp

/-- `pollRun500` from tick 0: observed iff some tick within the budget
satisfies the probe. -/
theorem pollRun500_zero_iff (probe : Nat → Bool) (t : Nat) :
    (pollRun500 probe t 0).1 = true ↔ ∃ j, j * 500 < t ∧ probe j = true := by
  rw [pollRun500_fst_iff]
  exact exists_congr fun j => by simp

/-- A poll loop observes the condition when some tick in budget satisfies
the probe. -/
theorem pollRun500_true_of (probe : Nat → Bool) (t j : Nat) (hj : j * 500 < t)
    (h : probe j = true) : (pollRun500 probe t 0).1 = true :=
  (pollRun500_zero_iff probe t).mpr ⟨j, hj, h⟩

/-- A poll loop misses when no tick in budget satisfies the probe. -/
theorem pollRun500_false_of (probe : Nat → Bool) (t : Nat)
    (h : ∀ j, j * 500 < t → probe j = false) : (pollRun500 probe t 0).1 = false := by
  have hne : ¬ ((pollRun500 probe t 0).1 = true) := by
    rw [pollRun500_zero_iff]
    rintro ⟨j, hj, hpj⟩
    rw [h j hj] at hpj
    cases hpj
  cases hb : (pollRun500 probe t 0).1
  · rfl
  · exact absurd hb hne

/-- A poll loop observes the condition when some tick in budget satisfies
the probe. -/
theorem pollRun250_true_of (probe : Nat → Bool) (t j : Nat) (hj : j * 250 < t)
    (h : probe j = true) : (pollRun250 probe t 0).1 = true :=
  (pollRun250_zero_iff probe t).mpr ⟨j, hj, h⟩

/-- A poll loop misses when no tick in budget satisfies the probe. -/
theorem pollRun250_false_of (probe : Nat → Bool) (t : Nat)
    (h : ∀ j, j * 250 < t → probe j = false) : (pollRun250 probe t 0).1 = false := by
  have hne : ¬ ((pollRun250 probe t 0).1 = true) := by
    rw [pollRun250_zero_iff]
    rintro ⟨j, hj, hpj⟩
    rw [h j hj] at hpj
    cases hpj
  cases hb : (pollRun250 probe t 0).1
  · rfl
  · exact absurd hb hne

/-!
## Branch characterizations of `StartTouchKeyboard`

One lemma per terminal region of the controller; together they cover
every run.
-/
theorem run_already (env : Env) (h : env.tabTipRunning = true) :
    StartTouchKeyboard env = (KbOutcome.ok, Trace.empty) := by
  simp [StartTouchKeyboard, h]

theorem run_pathFail (env : Env) (h1 : env.tabTipRunning = false)
    (h2 : HR_FAILED env.hrPath) :
    StartTouchKeyboard env =
      (KbOutcome.notFound "Could not get Common Program Files path.", pathFailTrace) := by
  simp [StartTouchKeyboard, h1, h2]

theorem run_fileMissing (env : Env) (h1 : env.tabTipRunning = false)
    (h2 : ¬ HR_FAILED env.hrPath) (h3 : tabTipFileMissing env.fileAttr) :
    StartTouchKeyboard env =
      (KbOutcome.notFound "TabTip.exe not found at its expected path.", fileMissingTrace) := by
  simp [StartTouchKeyboard, h1, h2, h3]

theorem run_shellTimeout (env : Env) (h1 : env.tabTipRunning = false)
    (h2 : ¬ HR_FAILED env.hrPath) (h3 : ¬ tabTipFileMissing env.fileAttr)
    (h4 : (pollRun500 env.shellProbe SHELL_READY_TIMEOUT_MS 0).1 = false) :
    StartTouchKeyboard env =
      (KbOutcome.activationFailed "Timed out waiting for Windows Shell (explorer.exe).",
        shellFailTrace) := by
  simp [StartTouchKeyboard, tryBody, h1, h2, h3, h4, shellFailTrace, Trace.empty]

theorem run_notVisible (env : Env) (h1 : env.tabTipRunning = false)
    (h2 : ¬ HR_FAILED env.hrPath) (h3 : ¬ tabTipFileMissing env.fileAttr)
    (h4 : (pollRun500 env.shellProbe SHELL_READY_TIMEOUT_MS 0).1 = true)
    (h5 : (pollRun250 env.visibleProbe COM_SERVICE_TIMEOUT_MS 0).1 = false) :
    StartTouchKeyboard env = (KbOutcome.ok, launchTrace env) := by
  simp [StartTouchKeyboard, tryBody, h1, h2, h3, h4, h5]

theorem run_coInitFail (env : Env) (h1 : env.tabTipRunning = false)
    (h2 : ¬ HR_FAILED env.hrPath) (h3 : ¬ tabTipFileMissing env.fileAttr)
    (h4 : (pollRun500 env.shellProbe SHELL_READY_TIMEOUT_MS 0).1 = true)
    (h5 : (pollRun250 env.visibleProbe COM_SERVICE_TIMEOUT_MS 0).1 = true)
    (h6 : HR_FAILED env.hrCoInit) :
    StartTouchKeyboard env =
      (KbOutcome.activationFailed "Failed to initialize COM for Toggle.",
        { launchTrace env with coInitCalls := 1 }) := by
  simp [StartTouchKeyboard, tryBody, h1, h2, h3, h4, h5, h6, launchTrace, Trace.empty]

theorem run_connTimeout (env : Env) (h1 : env.tabTipRunning = false)
    (h2 : ¬ HR_FAILED env.hrPath) (h3 : ¬ tabTipFileMissing env.fileAttr)
    (h4 : (pollRun500 env.shellProbe SHELL_READY_TIMEOUT_MS 0).1 = true)
    (h5 : (pollRun250 env.visibleProbe COM_SERVICE_TIMEOUT_MS 0).1 = true)
    (h6 : ¬ HR_FAILED env.hrCoInit)
    (h7 : (pollRun250 (fun i => decide (HR_SUCCEEDED (env.hrCoCreate i)))
        COM_SERVICE_TIMEOUT_MS 0).1 = false) :
    StartTouchKeyboard env =
      (KbOutcome.activationFailed
        "Timed out waiting for TabTip COM service (after keyboard was visible).",
        { comTrace env with coUninitCalls := 1 }) := by
  simp [StartTouchKeyboard, tryBody, h1, h2, h3, h4, h5, h6, h7, comTrace, launchTrace,
    Trace.empty]

theorem run_toggleOk (env : Env) (h1 : env.tabTipRunning = false)
    (h2 : ¬ HR_FAILED env.hrPath) (h3 : ¬ tabTipFileMissing env.fileAttr)
    (h4 : (pollRun500 env.shellProbe SHELL_READY_TIMEOUT_MS 0).1 = true)
    (h5 : (pollRun250 env.visibleProbe COM_SERVICE_TIMEOUT_MS 0).1 = true)
    (h6 : ¬ HR_FAILED env.hrCoInit)
    (h7 : (pollRun250 (fun i => decide (HR_SUCCEEDED (env.hrCoCreate i)))
        COM_SERVICE_TIMEOUT_MS 0).1 = true)
    (h8 : env.toggleComError = none) :
    StartTouchKeyboard env =
      (KbOutcome.ok,
        { comTrace env with
          toggleCalls := 1
          releaseCalls := 1
          coUninitCalls := 1 }) := by
  simp [StartTouchKeyboard, tryBody, h1, h2, h3, h4, h5, h6, h7, h8]

theorem run_comError (env : Env) (msg : String) (h1 : env.tabTipRunning = false)
    (h2 : ¬ HR_FAILED env.hrPath) (h3 : ¬ tabTipFileMissing env.fileAttr)
    (h4 : (pollRun500 env.shellProbe SHELL_READY_TIMEOUT_MS 0).1 = true)
    (h5 : (pollRun250 env.visibleProbe COM_SERVICE_TIMEOUT_MS 0).1 = true)
    (h6 : ¬ HR_FAILED env.hrCoInit)
    (h7 : (pollRun250 (fun i => decide (HR_SUCCEEDED (env.hrCoCreate i)))
        COM_SERVICE_TIMEOUT_MS 0).1 = true)
    (h8 : env.toggleComError = some msg) :
    StartTouchKeyboard env =
      (KbOutcome.activationFailed (WstringToString msg),
        { comTrace env with
          toggleCalls := 1
          coUninitCalls := 1 }) := by
  simp [StartTouchKeyboard, tryBody, h1, h2, h3, h4, h5, h6, h7, h8, comTrace, launchTrace,
    Trace.empty]

/-- Every run of the controller lands in one of the nine terminal
regions. -/
theorem run_cases (env : Env) :
    StartTouchKeyboard env = (KbOutcome.ok, Trace.empty) ∨
    StartTouchKeyboard env =
      (KbOutcome.notFound "Could not get Common Program Files path.", pathFailTrace) ∨
    StartTouchKeyboard env =
      (KbOutcome.notFound "TabTip.exe not found at its expected path.", fileMissingTrace) ∨
    StartTouchKeyboard env =
      (KbOutcome.activationFailed "Timed out waiting for Windows Shell (explorer.exe).",
        shellFailTrace) ∨
    StartTouchKeyboard env = (KbOutcome.ok, launchTrace env) ∨
    (StartTouchKeyboard env =
      (KbOutcome.activationFailed "Failed to initialize COM for Toggle.",
        { launchTrace env with coInitCalls := 1 }) ∧ HR_FAILED env.hrCoInit) ∨
    (StartTouchKeyboard env =
      (KbOutcome.activationFailed
        "Timed out waiting for TabTip COM service (after keyboard was visible).",
        { comTrace env with coUninitCalls := 1 }) ∧ ¬ HR_FAILED env.hrCoInit) ∨
    (StartTouchKeyboard env =
      (KbOutcome.ok,
        { comTrace env with
          toggleCalls := 1
          releaseCalls := 1
          coUninitCalls := 1 }) ∧ ¬ HR_FAILED env.hrCoInit) ∨
    ((∃ msg, StartTouchKeyboard env =
      (KbOutcome.activationFailed (WstringToString msg),
        { comTrace env with
          toggleCalls := 1
          coUninitCalls := 1 })) ∧ ¬ HR_FAILED env.hrCoInit) := by
  by_cases h1 : env.tabTipRunning = true
  · exact Or.inl (run_already env h1)
  have h1' : env.tabTipRunning = false := by simpa using h1
  by_cases h2 : HR_FAILED env.hrPath
  · exact Or.inr (Or.inl (run_pathFail env h1' h2))
  by_cases h3 : tabTipFileMissing env.fileAttr
  · exact Or.inr (Or.inr (Or.inl (run_fileMissing env h1' h2 h3)))
  cases h4 : (pollRun500 env.shellProbe SHELL_READY_TIMEOUT_MS 0).1 with
  | false =>
    exact Or.inr (Or.inr (Or.inr (Or.inl (run_shellTimeout env h1' h2 h3 h4))))
  | true =>
  cases h5 : (pollRun250 env.visibleProbe COM_SERVICE_TIMEOUT_MS 0).1 with
  | false =>
    exact Or.inr (Or.inr (Or.inr (Or.inr (Or.inl (run_notVisible env h1' h2 h3 h4 h5)))))
  | true =>
  by_cases h6 : HR_FAILED env.hrCoInit
  · exact Or.inr (Or.inr (Or.inr (Or.inr (Or.inr (Or.inl
      ⟨run_coInitFail env h1' h2 h3 h4 h5 h6, h6⟩)))))
  cases h7 : (pollRun250 (fun i => decide (HR_SUCCEEDED (env.hrCoCreate i)))
      COM_SERVICE_TIMEOUT_MS 0).1 with
  | false =>
    exact Or.inr (Or.inr (Or.inr (Or.inr (Or.inr (Or.inr (Or.inl
      ⟨run_connTimeout env h1' h2 h3 h4 h5 h6 h7, h6⟩))))))
  | true =>
  cases h8 : env.toggleComError with
  | none =>
    exact Or.inr (Or.inr (Or.inr (Or.inr (Or.inr (Or.inr (Or.inr (Or.inl
      ⟨run_toggleOk env h1' h2 h3 h4 h5 h6 h7 h8, h6⟩)))))))
  | some msg =>
    exact Or.inr (Or.inr (Or.inr (Or.inr (Or.inr (Or.inr (Or.inr (Or.inr
      ⟨⟨msg, run_comError env msg h1' h2 h3 h4 h5 h6 h7 h8⟩, h6⟩)))))))

/-!
## The claims
-/

/-- C1: if TabTip.exe is already running at the start of an activation
attempt, `StartTouchKeyboard` returns success immediately with the empty
trace — no path resolution, no shell wait, no launch, no settle delay, no
visibility poll, no runtime initialization and no toggle call — for any
prior visibility state. -/
theorem C1_already_running_short_circuit (env : Env) (h : env.tabTipRunning = true) :
    StartTouchKeyboard env = (KbOutcome.ok, Trace.empty) :=
  run_already env h

/-- C1 witness: the short circuit at a concrete environment. -/
theorem C1_already_running_short_circuit_witness :
    StartTouchKeyboard alreadyRunningEnv = (KbOutcome.ok, Trace.empty) :=
  C1_already_running_short_circuit alreadyRunningEnv rfl

/-- C2 counterexample: an environment in which the visibility detector
returned true during the polling window and yet no toggle call was issued
(runtime initialization fails), refuting the claimed "if and only if". -/
theorem C2_toggle_iff_visible_counterexample :
    (∃ j, j * 250 < COM_SERVICE_TIMEOUT_MS ∧ coInitFailEnv.visibleProbe j = true) ∧
    (StartTouchKeyboard coInitFailEnv).2.toggleCalls = 0 := by
  constructor
  · exact ⟨0, by decide, rfl⟩
  · rw [run_coInitFail coInitFailEnv rfl (by decide) (by decide)
      (pollRun500_true_of _ _ 0 (by decide) rfl) (pollRun250_true_of _ _ 0 (by decide) rfl)
      (by decide)]
    simp [launchTrace, Trace.empty]

/-- C2 (amended): in an attempt that reaches the polling stage, a toggle
call implies the detector returned true during the window; when the
runtime initializes and some service-connect attempt within budget
succeeds, the toggle is issued exactly once iff the detector returned
true during the window; and with an always-false detector the attempt
succeeds with zero toggle calls and the runtime never initialized. -/
theorem C2_visibility_gated_toggle_amended (env : Env)
    (h1 : env.tabTipRunning = false)
    (h2 : ¬ HR_FAILED env.hrPath) (h3 : ¬ tabTipFileMissing env.fileAttr)
    (h4 : (pollRun500 env.shellProbe SHELL_READY_TIMEOUT_MS 0).1 = true) :
    ((StartTouchKeyboard env).2.toggleCalls ≠ 0 →
      ∃ j, j * 250 < COM_SERVICE_TIMEOUT_MS ∧ env.visibleProbe j = true) ∧
    (¬ HR_FAILED env.hrCoInit →
      (∃ j, j * 250 < COM_SERVICE_TIMEOUT_MS ∧ HR_SUCCEEDED (env.hrCoCreate j)) →
      ((StartTouchKeyboard env).2.toggleCalls = 1 ↔
        ∃ j, j * 250 < COM_SERVICE_TIMEOUT_MS ∧ env.visibleProbe j = true)) ∧
    ((∀ j, env.visibleProbe j = false) →
      (StartTouchKeyboard env).1 = KbOutcome.ok ∧
      (StartTouchKeyboard env).2.toggleCalls = 0 ∧
      (StartTouchKeyboard env).2.coInitCalls = 0) := by
  cases h5 : (pollRun250 env.visibleProbe COM_SERVICE_TIMEOUT_MS 0).1 with
  | false =>
    have heq := run_notVisible env h1 h2 h3 h4 h5
    refine ⟨?_, ?_, ?_⟩
    · intro htog
      exfalso
      apply htog
      rw [heq]
      simp [launchTrace, Trace.empty]
    · intro _ _
      rw [heq]
      constructor
      · intro h1t
        exfalso
        simp [launchTrace, Trace.empty] at h1t
      · rintro ⟨j, hj, hpj⟩
        have := pollRun250_true_of env.visibleProbe COM_SERVICE_TIMEOUT_MS j hj hpj
        rw [h5] at this
        cases this
    · intro _
      rw [heq]
      simp [launchTrace, Trace.empty]
  | true =>
    have hvis : ∃ j, j * 250 < COM_SERVICE_TIMEOUT_MS ∧ env.visibleProbe j = true :=
      (pollRun250_zero_iff _ _).mp h5
    refine ⟨fun _ => hvis, ?_, ?_⟩
    · intro h6 hconn
      obtain ⟨j, hj, hsj⟩ := hconn
      have h7 : (pollRun250 (fun i => decide (HR_SUCCEEDED (env.hrCoCreate i)))
          COM_SERVICE_TIMEOUT_MS 0).1 = true :=
        pollRun250_true_of _ _ j hj (decide_eq_true hsj)
      refine ⟨fun _ => hvis, fun _ => ?_⟩
      cases h8 : env.toggleComError with
      | none =>
        rw [run_toggleOk env h1 h2 h3 h4 h5 h6 h7 h8]
      | some msg =>
        rw [run_comError env msg h1 h2 h3 h4 h5 h6 h7 h8]
    · intro hall
      exfalso
      obtain ⟨j, _, hpj⟩ := hvis
      rw [hall j] at hpj
      cases hpj

/-- C2 witness: the amended statement instantiated at the all-succeeding
environment. -/
theorem C2_visibility_gated_toggle_amended_witness :
    ((StartTouchKeyboard happyEnv).2.toggleCalls ≠ 0 →
      ∃ j, j * 250 < COM_SERVICE_TIMEOUT_MS ∧ happyEnv.visibleProbe j = true) ∧
    (¬ HR_FAILED happyEnv.hrCoInit →
      (∃ j, j * 250 < COM_SERVICE_TIMEOUT_MS ∧ HR_SUCCEEDED (happyEnv.hrCoCreate j)) →
      ((StartTouchKeyboard happyEnv).2.toggleCalls = 1 ↔
        ∃ j, j * 250 < COM_SERVICE_TIMEOUT_MS ∧ happyEnv.visibleProbe j = true)) ∧
    ((∀ j, happyEnv.visibleProbe j = false) →
      (StartTouchKeyboard happyEnv).1 = KbOutcome.ok ∧
      (StartTouchKeyboard happyEnv).2.toggleCalls = 0 ∧
      (StartTouchKeyboard happyEnv).2.coInitCalls = 0) :=
  C2_visibility_gated_toggle_amended happyEnv rfl (by decide) (by decide)
    (pollRun500_true_of _ _ 0 (by decide) rfl)

/-- C3: on every run the COM runtime is released exactly once when its
initialization succeeded and never otherwise, and the `comInitialized`
flag is set exactly when `CoInitializeEx` was called and succeeded. -/
theorem C3_runtime_release_pairing (env : Env) :
    (StartTouchKeyboard env).2.coUninitCalls
        = (if (StartTouchKeyboard env).2.comInitialized then 1 else 0) ∧
    ((StartTouchKeyboard env).2.comInitialized = true ↔
      (StartTouchKeyboard env).2.coInitCalls = 1 ∧ HR_SUCCEEDED env.hrCoInit) := by
  rcases run_cases env with h | h | h | h | h | ⟨h, hco⟩ | ⟨h, hco⟩ | ⟨h, hco⟩ | ⟨⟨msg, h⟩, hco⟩ <;>
    rw [h] <;>
    simp [Trace.empty, pathFailTrace, fileMissingTrace, shellFailTrace, launchTrace,
      comTrace, HR_SUCCEEDED] <;>
    omega

/-- C4: each injected failure point maps to exactly one of the two error
kinds — missing folder resolution and missing executable file yield the
not-found kind; shell-wait timeout, runtime-initialization failure and
service-connect timeout yield the activation-failed kind; and the two
kinds are distinct outcomes. -/
theorem C4_error_taxonomy (e1 e2 e3 e4 e5 : Env)
    (h1a : e1.tabTipRunning = false) (h1b : HR_FAILED e1.hrPath)
    (h2a : e2.tabTipRunning = false) (h2b : ¬ HR_FAILED e2.hrPath)
    (h2c : tabTipFileMissing e2.fileAttr)
    (h3a : e3.tabTipRunning = false) (h3b : ¬ HR_FAILED e3.hrPath)
    (h3c : ¬ tabTipFileMissing e3.fileAttr)
    (h3d : (pollRun500 e3.shellProbe SHELL_READY_TIMEOUT_MS 0).1 = false)
    (h4a : e4.tabTipRunning = false) (h4b : ¬ HR_FAILED e4.hrPath)
    (h4c : ¬ tabTipFileMissing e4.fileAttr)
    (h4d : (pollRun500 e4.shellProbe SHELL_READY_TIMEOUT_MS 0).1 = true)
    (h4e : (pollRun250 e4.visibleProbe COM_SERVICE_TIMEOUT_MS 0).1 = true)
    (h4f : HR_FAILED e4.hrCoInit)
    (h5a : e5.tabTipRunning = false) (h5b : ¬ HR_FAILED e5.hrPath)
    (h5c : ¬ tabTipFileMissing e5.fileAttr)
    (h5d : (pollRun500 e5.shellProbe SHELL_READY_TIMEOUT_MS 0).1 = true)
    (h5e : (pollRun250 e5.visibleProbe COM_SERVICE_TIMEOUT_MS 0).1 = true)
    (h5f : ¬ HR_FAILED e5.hrCoInit)
    (h5g : (pollRun250 (fun i => decide (HR_SUCCEEDED (e5.hrCoCreate i)))
        COM_SERVICE_TIMEOUT_MS 0).1 = false) :
    (StartTouchKeyboard e1).1 =
      KbOutcome.notFound "Could not get Common Program Files path." ∧
    (StartTouchKeyboard e2).1 =
      KbOutcome.notFound "TabTip.exe not found at its expected path." ∧
    (StartTouchKeyboard e3).1 =
      KbOutcome.activationFailed "Timed out waiting for Windows Shell (explorer.exe)." ∧
    (StartTouchKeyboard e4).1 =
      KbOutcome.activationFailed "Failed to initialize COM for Toggle." ∧
    (StartTouchKeyboard e5).1 =
      KbOutcome.activationFailed
        "Timed out waiting for TabTip COM service (after keyboard was visible)." ∧
    ∀ m m' : String, KbOutcome.notFound m ≠ KbOutcome.activationFailed m' := by
  rw [run_pathFail e1 h1a h1b, run_fileMissing e2 h2a h2b h2c,
    run_shellTimeout e3 h3a h3b h3c h3d, run_coInitFail e4 h4a h4b h4c h4d h4e h4f,
    run_connTimeout e5 h5a h5b h5c h5d h5e h5f h5g]
  simp

/-- C4 witness: the five failure points at concrete environments. -/
theorem C4_error_taxonomy_witness :
    (StartTouchKeyboard pathFailEnv).1 =
      KbOutcome.notFound "Could not get Common Program Files path." ∧
    (StartTouchKeyboard fileMissingEnv).1 =
      KbOutcome.notFound "TabTip.exe not found at its expected path." ∧
    (StartTouchKeyboard shellTimeoutEnv).1 =
      KbOutcome.activationFailed "Timed out waiting for Windows Shell (explorer.exe)." ∧
    (StartTouchKeyboard coInitFailEnv).1 =
      KbOutcome.activationFailed "Failed to initialize COM for Toggle." ∧
    (StartTouchKeyboard connFailEnv).1 =
      KbOutcome.activationFailed
        "Timed out waiting for TabTip COM service (after keyboard was visible)." ∧
    ∀ m m' : String, KbOutcome.notFound m ≠ KbOutcome.activationFailed m' :=
  C4_error_taxonomy pathFailEnv fileMissingEnv shellTimeoutEnv coInitFailEnv connFailEnv
    rfl (by decide)
    rfl (by decide) (Or.inl (by decide))
    rfl (by decide) (by decide) (pollRun500_false_of _ _ fun j _ => rfl)
    rfl (by decide) (by decide) (pollRun500_true_of _ _ 0 (by decide) rfl)
    (pollRun250_true_of _ _ 0 (by decide) rfl) (by decide)
    rfl (by decide) (by decide) (pollRun500_true_of _ _ 0 (by decide) rfl)
    (pollRun250_true_of _ _ 0 (by decide) rfl) (by decide)
    (pollRun250_false_of _ _ fun j _ => rfl)

/-- C5 counterexample: with `timeout = 0` and a process that is running
(probe constantly true), `WaitForProcess` returns `false` without a
single probe of the process table, contradicting "returns the result of
the current probe". -/
theorem C5_zero_timeout_counterexample :
    WaitForProcess (fun _ => true) 0 = false ∧
    WaitForProcessProbes (fun _ => true) 0 = 0 ∧
    (fun _ : Nat => true) 0 = true := by
  refine ⟨?_, ?_, rfl⟩
  · exact pollRun500_false_of _ 0 (fun j hj => absurd hj (by omega))
  · unfold WaitForProcessProbes
    rw [pollRun500]
    norm_num

/-- C5 (amended): `WaitForProcess` polls on a fixed 500 ms interval,
returns true exactly when the process is observed at some tick within the
budget, never blocks longer than the timeout plus one poll interval; for
`timeout = 0` it returns false immediately, performing no probe at all. -/
theorem C5_waitforprocess_amended (probe : Nat → Bool) (timeoutMs : Nat) :
    (WaitForProcess probe timeoutMs = true ↔
      ∃ i, i * 500 < timeoutMs ∧ probe i = true) ∧
    WaitForProcessBlockedMs probe timeoutMs ≤ timeoutMs + 500 ∧
    WaitForProcess probe 0 = false ∧
    WaitForProcessProbes probe 0 = 0 := by
  refine ⟨pollRun500_zero_iff probe timeoutMs, ?_, ?_, ?_⟩
  · have h := waitSleptFrom_le probe timeoutMs 0 (by omega)
    unfold WaitForProcessBlockedMs
    omega
  · exact pollRun500_false_of probe 0 (fun j hj => absurd hj (by omega))
  · unfold WaitForProcessProbes
    rw [pollRun500]
    norm_num

/-- C6 counterexample: the post-launch settle delay of the code is 5
seconds, not 7; a run that reaches the settle stage sleeps 5000 ms. -/
theorem C6_settle_delay_counterexample :
    POST_LAUNCH_DELAY_MS = 5000 ∧
    (StartTouchKeyboard happyEnv).2.settleMs = 5000 ∧ (5000 : Nat) ≠ 7000 := by
  refine ⟨rfl, ?_, by norm_num⟩
  rw [run_toggleOk happyEnv rfl (by decide) (by decide)
    (pollRun500_true_of _ _ 0 (by decide) rfl) (pollRun250_true_of _ _ 0 (by decide) rfl)
    (by decide) (pollRun250_true_of _ _ 0 (by decide) rfl) rfl]
  simp [comTrace, launchTrace, Trace.empty, POST_LAUNCH_DELAY_MS]

/-- C6 (amended): the fixed post-launch settle delay equals 5 seconds in
this code; on every run the settle sleep is either not performed (0 ms)
or exactly the 5000 ms constant, hence never exceeds 7 seconds. -/
theorem C6_settle_delay_amended :
    POST_LAUNCH_DELAY_MS = 5000 ∧
    (∀ env : Env, (StartTouchKeyboard env).2.settleMs = 0 ∨
      (StartTouchKeyboard env).2.settleMs = POST_LAUNCH_DELAY_MS) ∧
    ∀ env : Env, (StartTouchKeyboard env).2.settleMs ≤ 7000 := by
  have key : ∀ env : Env, (StartTouchKeyboard env).2.settleMs = 0 ∨
      (StartTouchKeyboard env).2.settleMs = POST_LAUNCH_DELAY_MS := by
    intro env
    rcases run_cases env with h | h | h | h | h | ⟨h, _⟩ | ⟨h, _⟩ | ⟨h, _⟩ | ⟨⟨msg, h⟩, _⟩ <;>
      rw [h] <;>
      simp [Trace.empty, pathFailTrace, fileMissingTrace, shellFailTrace, launchTrace, comTrace]
  refine ⟨rfl, key, fun env => ?_⟩
  rcases key env with h | h <;> rw [h] <;> norm_num [POST_LAUNCH_DELAY_MS]

/-- C7: the service invoker connects iff some `CoCreateInstance` attempt
on the 250 ms cadence succeeds within the 10 s budget; on connection it
issues exactly one toggle call and one release, returns success, and the
result never depends on the toggle call's own return code; on exhausting
the budget it reports the service-unreachable activation failure with
zero toggle calls. -/
theorem C7_service_invoker (env : Env)
    (h1 : env.tabTipRunning = false)
    (h2 : ¬ HR_FAILED env.hrPath) (h3 : ¬ tabTipFileMissing env.fileAttr)
    (h4 : (pollRun500 env.shellProbe SHELL_READY_TIMEOUT_MS 0).1 = true)
    (h5 : (pollRun250 env.visibleProbe COM_SERVICE_TIMEOUT_MS 0).1 = true)
    (h6 : ¬ HR_FAILED env.hrCoInit)
    (h8 : env.toggleComError = none) :
    ((pollRun250 (fun i => decide (HR_SUCCEEDED (env.hrCoCreate i)))
        COM_SERVICE_TIMEOUT_MS 0).1 = true ↔
      ∃ j, j * 250 < COM_SERVICE_TIMEOUT_MS ∧ HR_SUCCEEDED (env.hrCoCreate j)) ∧
    ((∃ j, j * 250 < COM_SERVICE_TIMEOUT_MS ∧ HR_SUCCEEDED (env.hrCoCreate j)) →
      (StartTouchKeyboard env).1 = KbOutcome.ok ∧
      (StartTouchKeyboard env).2.toggleCalls = 1 ∧
      (StartTouchKeyboard env).2.releaseCalls = 1 ∧
      ∀ x : Int, StartTouchKeyboard { env with hrToggle := x } = StartTouchKeyboard env) ∧
    ((∀ j, j * 250 < COM_SERVICE_TIMEOUT_MS → ¬ HR_SUCCEEDED (env.hrCoCreate j)) →
      (StartTouchKeyboard env).1 =
        KbOutcome.activationFailed
          "Timed out waiting for TabTip COM service (after keyboard was visible)." ∧
      (StartTouchKeyboard env).2.toggleCalls = 0) := by
  refine ⟨?_, ?_, ?_⟩
  · rw [pollRun250_zero_iff]
    simp
  · intro hconn
    obtain ⟨j, hj, hsj⟩ := hconn
    have h7 : (pollRun250 (fun i => decide (HR_SUCCEEDED (env.hrCoCreate i)))
        COM_SERVICE_TIMEOUT_MS 0).1 = true :=
      pollRun250_true_of _ _ j hj (decide_eq_true hsj)
    have hind : ∀ x : Int, StartTouchKeyboard { env with hrToggle := x } =
        StartTouchKeyboard env := fun x => rfl
    have heq := run_toggleOk env h1 h2 h3 h4 h5 h6 h7 h8
    refine ⟨?_, ?_, ?_, hind⟩ <;> rw [heq]
  · intro hnone
    have h7 : (pollRun250 (fun i => decide (HR_SUCCEEDED (env.hrCoCreate i)))
        COM_SERVICE_TIMEOUT_MS 0).1 = false :=
      pollRun250_false_of _ _ (fun j hj => decide_eq_false (hnone j hj))
    rw [run_connTimeout env h1 h2 h3 h4 h5 h6 h7]
    exact ⟨rfl, by simp [comTrace, launchTrace, Trace.empty]⟩

/-- C7 witness: the invoker contract at the all-succeeding environment. -/
theorem C7_service_invoker_witness :
    ((pollRun250 (fun i => decide (HR_SUCCEEDED (happyEnv.hrCoCreate i)))
        COM_SERVICE_TIMEOUT_MS 0).1 = true ↔
      ∃ j, j * 250 < COM_SERVICE_TIMEOUT_MS ∧ HR_SUCCEEDED (happyEnv.hrCoCreate j)) ∧
    ((∃ j, j * 250 < COM_SERVICE_TIMEOUT_MS ∧ HR_SUCCEEDED (happyEnv.hrCoCreate j)) →
      (StartTouchKeyboard happyEnv).1 = KbOutcome.ok ∧
      (StartTouchKeyboard happyEnv).2.toggleCalls = 1 ∧
      (StartTouchKeyboard happyEnv).2.releaseCalls = 1 ∧
      ∀ x : Int, StartTouchKeyboard { happyEnv with hrToggle := x } =
        StartTouchKeyboard happyEnv) ∧
    ((∀ j, j * 250 < COM_SERVICE_TIMEOUT_MS → ¬ HR_SUCCEEDED (happyEnv.hrCoCreate j)) →
      (StartTouchKeyboard happyEnv).1 =
        KbOutcome.activationFailed
          "Timed out waiting for TabTip COM service (after keyboard was visible)." ∧
      (StartTouchKeyboard happyEnv).2.toggleCalls = 0) :=
  C7_service_invoker happyEnv rfl (by decide) (by decide)
    (pollRun500_true_of _ _ 0 (by decide) rfl)
    (pollRun250_true_of _ _ 0 (by decide) rfl) (by decide) rfl

/-- C8: when folder resolution fails or the resolved executable is not a
regular file, the run reports the not-found error before any wait,
launch, poll, toggle or runtime action, with exactly one path lookup and
at most one file-attribute query (never retried). -/
theorem C8_component_not_found_early (env : Env) (h1 : env.tabTipRunning = false)
    (h : HR_FAILED env.hrPath ∨ tabTipFileMissing env.fileAttr) :
    (∃ msg, (StartTouchKeyboard env).1 = KbOutcome.notFound msg) ∧
    (StartTouchKeyboard env).2.shellWaitCalls = 0 ∧
    (StartTouchKeyboard env).2.launchCalls = 0 ∧
    (StartTouchKeyboard env).2.settleMs = 0 ∧
    (StartTouchKeyboard env).2.visPolls = 0 ∧
    (StartTouchKeyboard env).2.coInitCalls = 0 ∧
    (StartTouchKeyboard env).2.toggleCalls = 0 ∧
    (StartTouchKeyboard env).2.coUninitCalls = 0 ∧
    (StartTouchKeyboard env).2.pathLookupCalls = 1 ∧
    (StartTouchKeyboard env).2.fileAttrCalls ≤ 1 := by
  by_cases h2 : HR_FAILED env.hrPath
  · rw [run_pathFail env h1 h2]
    exact ⟨⟨_, rfl⟩, by simp [pathFailTrace, Trace.empty]⟩
  · have h3 : tabTipFileMissing env.fileAttr := h.resolve_left h2
    rw [run_fileMissing env h1 h2 h3]
    exact ⟨⟨_, rfl⟩, by simp [fileMissingTrace, Trace.empty]⟩

/-- C8 witness: a concrete environment whose executable file is missing. -/
theorem C8_component_not_found_early_witness :
    (∃ msg, (StartTouchKeyboard fileMissingEnv).1 = KbOutcome.notFound msg) ∧
    (StartTouchKeyboard fileMissingEnv).2.shellWaitCalls = 0 ∧
    (StartTouchKeyboard fileMissingEnv).2.launchCalls = 0 ∧
    (StartTouchKeyboard fileMissingEnv).2.settleMs = 0 ∧
    (StartTouchKeyboard fileMissingEnv).2.visPolls = 0 ∧
    (StartTouchKeyboard fileMissingEnv).2.coInitCalls = 0 ∧
    (StartTouchKeyboard fileMissingEnv).2.toggleCalls = 0 ∧
    (StartTouchKeyboard fileMissingEnv).2.coUninitCalls = 0 ∧
    (StartTouchKeyboard fileMissingEnv).2.pathLookupCalls = 1 ∧
    (StartTouchKeyboard fileMissingEnv).2.fileAttrCalls ≤ 1 :=
  C8_component_not_found_early fileMissingEnv rfl
    (Or.inr (Or.inl (by decide)))

/-- C9: a lower-layer COM error object raised during the toggle sequence
is caught at the controller boundary, its diagnostic text captured, and
re-raised as the controller's activation-failed kind (with the runtime
still released exactly once); it never escapes as any other outcome
kind. -/
theorem C9_com_error_translated (env : Env) (msg : String)
    (h1 : env.tabTipRunning = false)
    (h2 : ¬ HR_FAILED env.hrPath) (h3 : ¬ tabTipFileMissing env.fileAttr)
    (h4 : (pollRun500 env.shellProbe SHELL_READY_TIMEOUT_MS 0).1 = true)
    (h5 : (pollRun250 env.visibleProbe COM_SERVICE_TIMEOUT_MS 0).1 = true)
    (h6 : ¬ HR_FAILED env.hrCoInit)
    (h7 : (pollRun250 (fun i => decide (HR_SUCCEEDED (env.hrCoCreate i)))
        COM_SERVICE_TIMEOUT_MS 0).1 = true)
    (h8 : env.toggleComError = some msg) :
    (StartTouchKeyboard env).1 = KbOutcome.activationFailed (WstringToString msg) ∧
    (StartTouchKeyboard env).2.coUninitCalls = 1 ∧
    ∀ m, (StartTouchKeyboard env).1 ≠ KbOutcome.notFound m := by
  rw [run_comError env msg h1 h2 h3 h4 h5 h6 h7 h8]
  exact ⟨rfl, by simp [comTrace, launchTrace, Trace.empty], by simp⟩

/-- C9 witness: the COM-error translation at a concrete environment. -/
theorem C9_com_error_translated_witness :
    (StartTouchKeyboard comErrorEnv).1 =
      KbOutcome.activationFailed (WstringToString "RPC server unavailable.") ∧
    (StartTouchKeyboard comErrorEnv).2.coUninitCalls = 1 ∧
    ∀ m, (StartTouchKeyboard comErrorEnv).1 ≠ KbOutcome.notFound m :=
  C9_com_error_translated comErrorEnv "RPC server unavailable." rfl (by decide) (by decide)
    (pollRun500_true_of _ _ 0 (by decide) rfl)
    (pollRun250_true_of _ _ 0 (by decide) rfl) (by decide)
    (pollRun250_true_of _ _ 0 (by decide) rfl) rfl

end KeyboardManager

namespace PanelManager

/-- C10: for 32-bit `WidthMm` and `HeightMm`, packing as `SetDisplaySize`
does (width in the low 32 bits, height in the high 32 bits) and unpacking
as `GetDisplaySize` does returns the original dimensions. -/
theorem C10_pack_unpack_roundtrip (d : Dimensions) (hw : d.WidthMm < 2 ^ 32)
    (hh : d.HeightMm < 2 ^ 32) :
    getDisplaySizeUnpack (setDisplaySizePack d) = d := by
  obtain ⟨w, h⟩ := d
  simp only [setDisplaySizePack, getDisplaySizeUnpack] at *
  have hpack : (h <<< 32) ||| w = h * 2 ^ 32 + w := by
    calc h <<< 32 ||| w = 2 ^ 32 * h ||| w := by rw [Nat.shiftLeft_eq, Nat.mul_comm]
    _ = 2 ^ 32 * h + w := (Nat.mul_add_lt_is_or hw h).symm
    _ = h * 2 ^ 32 + w := by rw [Nat.mul_comm]
  have hmask : ∀ x : Nat, x &&& 0xFFFFFFFF = x % 2 ^ 32 := fun x => by
    have hm : (0xFFFFFFFF : Nat) = 2 ^ 32 - 1 := by norm_num
    rw [hm, Nat.and_pow_two_sub_one_eq_mod]
  rw [hpack, hmask, hmask, Nat.shiftRight_eq_div_pow]
  simp only [Dimensions.mk.injEq]
  constructor <;> omega

/-- C10 witness: the round trip at concrete dimensions 800 x 600. -/
theorem C10_pack_unpack_roundtrip_witness :
    getDisplaySizeUnpack (setDisplaySizePack ⟨800, 600⟩) = ⟨800, 600⟩ :=
  C10_pack_unpack_roundtrip ⟨800, 600⟩ (by norm_num) (by norm_num)

end PanelManager
